import Mathlib

/-!
Verification development for the `mysql` client package: a shallow embedding
of the admission controller ("relay"), retry-on-deadlock policy, transaction
lifecycle manager with observer fan-out, statistics sampler, client facade
with replica routing, and the column-name index of the row decoder.

Conventions of the embedding:
* Go `error` values are `Option Err` (`none` = nil).
* Go `int64`/`int` counters are `Int`; durations are `Nat` nanoseconds.
* Channels are modelled functionally: the bounded telemetry channel is a
  `List` with an explicit capacity check, an unbuffered observer channel is
  an `ObsChan` record whose `received` field records what a non-blocking
  send delivered (delivery succeeds exactly when a reader is `ready`).
* The blocking acquisition `relay.start` is modelled in the single-caller
  view: it acquires a ticket; waiting time is out of scope.
-/

namespace GoMysql

/-- Error values of the package (`errors.go`): the sentinel errors
`ErrRollback`, `ErrQueueOverloaded`, `ErrWrongReference`, driver errors
`*mysql.MySQLError` with a numeric code, and other generic errors. -/
inductive Err where
  | errRollback : Err
  | errQueueOverloaded : Err
  | errWrongReference : Err
  | mysqlError : Nat → String → Err
  | generic : String → Err
deriving DecidableEq, Repr

/-- MySQL deadlock error code, `ErrMySQLDeadlock SQLErrorNumber = 1213`. -/
def ErrMySQLDeadlock : Nat := 1213

/-- Embeds `IsErrorCode(err, no)`: true iff `err` is a `*mysql.MySQLError`
whose `Number` equals `no`. -/
def IsErrorCode (e : Option Err) (no : Nat) : Bool :=
  match e with
  | some (Err.mysqlError c _) => c == no
  | _ => false

/-- Embeds the `Config` struct (durations in nanoseconds). -/
structure Config where
  RetryOnDeadlock : Bool
  RetryOnDeadlockCount : Int
  RetryOnDeadlockDelay : Nat
  Timeout : Int
  MaxQueuedQueries : Int
  MaxOpenConns : Int
  MaxIdleConns : Int
  ConnMaxLifetime : Int
  SyncAfterTransaction : Bool
deriving DecidableEq, Repr

/-- Embeds `NewDefaultConfig()`. -/
def NewDefaultConfig : Config :=
  ⟨true, 5, 10000000, 10000000000, 10000, 20, 20, 60000000000, false⟩

/-- State of the relay (`relay.go`): the buffered `chan bool` of capacity
`capacity` holds `held` tickets; `acquires` counts how many times a ticket
was ever acquired (history variable used only by specifications). -/
structure RelayState where
  capacity : Nat
  held : Nat
  acquires : Nat
deriving DecidableEq, Repr

/-- Embeds `relay.start()`: sends one ticket into the channel (single-caller
view: a slot is free, so the send completes). -/
def relayStart (r : RelayState) : RelayState :=
  ⟨r.capacity, r.held + 1, r.acquires + 1⟩

/-- Embeds `relay.end()`: `select` receive with `default`, so one ticket is
removed when one is held and nothing happens otherwise. -/
def relayEnd (r : RelayState) : RelayState :=
  match r.held with
  | 0 => r
  | Nat.succ n => ⟨r.capacity, n, r.acquires⟩

/-- Embeds `relay.conditionalEnd(err *error)`. The argument is the Go
pointer: `none` is a nil `*error`, `some v` is a pointer to an error
variable currently holding `v` (`v = none` being a nil error). The source
tests `if err != nil` — the POINTER, not the pointed-to value — so it
releases whenever the pointer is non-nil. -/
def conditionalEnd (r : RelayState) (errPtr : Option (Option Err)) : RelayState :=
  if errPtr.isSome then relayEnd r else r

/-- Embeds the `QueryStats` sample record (durations in nanoseconds). -/
structure QueryStats where
  Query : String
  ExecutionTime : Nat
  QueueTime : Nat
  TransactionTime : Nat
deriving DecidableEq, Repr

/-- Capacity of the telemetry channel, `make(chan *QueryStats, 100)` in
`newStats()`. -/
def sampleChanCap : Nat := 100

/-- Embeds `stats.sample`: a non-blocking `select` send on the bounded
channel — enqueue when a buffer slot is free, silently drop otherwise.
The channel buffer is the list `chan`. -/
def statsSample (chan : List QueryStats) (x : QueryStats) : List QueryStats :=
  if chan.length < sampleChanCap then chan ++ [x] else chan

/-- The three atomic counters of the `stats` struct. -/
structure Counters where
  inProgressQueries : Int
  totalSuccessQueries : Int
  totalFailedQueries : Int
deriving DecidableEq, Repr

/-- Embeds `Client.limitReached()`: increments the in-progress counter,
then errors with `ErrQueueOverloaded` iff the (incremented) in-progress
count minus the pool's max-open-connections exceeds `MaxQueuedQueries`. -/
def limitReached (c : Counters) (maxOpenConnections : Int) (maxQueuedQueries : Int) :
    Counters × Option Err :=
  let c2 : Counters :=
    ⟨c.inProgressQueries + 1, c.totalSuccessQueries, c.totalFailedQueries⟩
  if c2.inProgressQueries - maxOpenConnections > maxQueuedQueries then
    (c2, some Err.errQueueOverloaded)
  else
    (c2, none)

/-- Embeds the retry loop `for ; i > 0; i-- { result, err = ...; if
IsErrorCode(err, ErrMySQLDeadlock) { time.Sleep(delay); continue }; break }`
shared verbatim by `Client.Exec`, `Client.Query` and `Client.MultiQuery`.
`f k` is the error outcome of the `k`-th driver attempt (`none` = success);
`fuel` is the loop counter `i`, `made` the attempts already made, `last`
the error variable carried across iterations, `sleeps` the number of
`time.Sleep(RetryOnDeadlockDelay)` calls so far. Returns (attempts made,
sleeps, final error). -/
def retryGo (f : Nat → Option Err) :
    Nat → Nat → Option Err → Nat → Nat × Nat × Option Err
  | 0, made, last, sleeps => (made, sleeps, last)
  | Nat.succ n, made, _, sleeps =>
    let e := f made
    if IsErrorCode e ErrMySQLDeadlock then
      retryGo f n (made + 1) e (sleeps + 1)
    else
      (made + 1, sleeps, e)

/-- The initial value of the loop counter `i`: `i = 1`, then
`i += RetryOnDeadlockCount` when `RetryOnDeadlock` is set. -/
def initialAttempts (cfg : Config) : Int :=
  1 + (if cfg.RetryOnDeadlock then cfg.RetryOnDeadlockCount else 0)

/-- The whole retry loop as run by `Client.Exec` (lines 176–186),
`Client.Query` (246–255) and `Client.MultiQuery` (322–331): the loop body
runs while `i > 0`, i.e. `(initialAttempts cfg).toNat` times at most. -/
def clientRetryLoop (cfg : Config) (f : Nat → Option Err) :
    Nat × Nat × Option Err :=
  retryGo f (initialAttempts cfg).toNat 0 none 0

/-- Observable outcome of one facade call on the executing client:
final counters and relay state, attempts made by the retry loop, sleeps
taken, and the returned error. -/
structure ExecResult where
  counters : Counters
  relay : RelayState
  attempts : Nat
  sleeps : Nat
  err : Option Err
deriving DecidableEq, Repr

/-- Embeds `Client.Exec` (the parts observable in this model): the deferred
counter bookkeeping, `limitReached`, ticket acquisition/release around the
retry loop, and the returned error. `f` gives the driver outcomes of the
attempts. On the overload fast-reject path the relay is never touched. -/
def clientExec (cfg : Config) (maxOpenConnections : Int) (c : Counters)
    (r : RelayState) (f : Nat → Option Err) : ExecResult :=
  match limitReached c maxOpenConnections cfg.MaxQueuedQueries with
  | (c1, some e) =>
    ⟨⟨c1.inProgressQueries - 1, c1.totalSuccessQueries, c1.totalFailedQueries + 1⟩,
      r, 0, 0, some e⟩
  | (c1, none) =>
    let r1 := relayStart r
    let res := clientRetryLoop cfg f
    let r2 := relayEnd r1
    match res.2.2 with
    | some e =>
      ⟨⟨c1.inProgressQueries - 1, c1.totalSuccessQueries, c1.totalFailedQueries + 1⟩,
        r2, res.1, res.2.1, some e⟩
    | none =>
      ⟨⟨c1.inProgressQueries - 1, c1.totalSuccessQueries + 1, c1.totalFailedQueries⟩,
        r2, res.1, res.2.1, none⟩

/-- Embeds the common body of `Client.Query` and `Client.MultiQuery` after
the replica check: identical to `Client.Exec` except that after a
successful retry loop the result-set parsing (`newResultsFromSqlRows`, and
for `MultiQuery` the drain loop over result sets) may still fail with
`parseErr`. -/
def queryBody (cfg : Config) (maxOpenConnections : Int) (c : Counters)
    (r : RelayState) (f : Nat → Option Err) (parseErr : Option Err) : ExecResult :=
  match limitReached c maxOpenConnections cfg.MaxQueuedQueries with
  | (c1, some e) =>
    ⟨⟨c1.inProgressQueries - 1, c1.totalSuccessQueries, c1.totalFailedQueries + 1⟩,
      r, 0, 0, some e⟩
  | (c1, none) =>
    let r1 := relayStart r
    let res := clientRetryLoop cfg f
    let r2 := relayEnd r1
    match res.2.2 with
    | some e =>
      ⟨⟨c1.inProgressQueries - 1, c1.totalSuccessQueries, c1.totalFailedQueries + 1⟩,
        r2, res.1, res.2.1, some e⟩
    | none =>
      match parseErr with
      | some e =>
        ⟨⟨c1.inProgressQueries - 1, c1.totalSuccessQueries, c1.totalFailedQueries + 1⟩,
          r2, res.1, res.2.1, some e⟩
      | none =>
        ⟨⟨c1.inProgressQueries - 1, c1.totalSuccessQueries + 1, c1.totalFailedQueries⟩,
          r2, res.1, res.2.1, none⟩

/-- Which client actually executed a facade call. -/
inductive Target where
  | primary : Target
  | replica : Target
deriving DecidableEq, Repr

/-- A primary client together with its (optional) attached replica client:
each side has its own counters and relay. The replica, when consulted, runs
the no-replica body on its own state (a replica has no replica of its
own). -/
structure TwoClients where
  primaryC : Counters
  primaryR : RelayState
  replicaC : Counters
  replicaR : RelayState
deriving DecidableEq, Repr

/-- Embeds `Client.Query`: `if c.replica != nil { return c.replica.Query(...) }`,
then the query body runs on the chosen client. -/
def clientQuery (cfg : Config) (maxOpenConnections : Int) (hasReplica : Bool)
    (s : TwoClients) (f : Nat → Option Err) (parseErr : Option Err) :
    TwoClients × Target × Option Err :=
  if hasReplica then
    let res := queryBody cfg maxOpenConnections s.replicaC s.replicaR f parseErr
    (⟨s.primaryC, s.primaryR, res.counters, res.relay⟩, Target.replica, res.err)
  else
    let res := queryBody cfg maxOpenConnections s.primaryC s.primaryR f parseErr
    (⟨res.counters, res.relay, s.replicaC, s.replicaR⟩, Target.primary, res.err)

/-- Embeds `Client.MultiQuery`: it has NO replica check in the source; the
body always runs on the primary client regardless of `hasReplica`. -/
def clientMultiQuery (cfg : Config) (maxOpenConnections : Int) (hasReplica : Bool)
    (s : TwoClients) (f : Nat → Option Err) (parseErr : Option Err) :
    TwoClients × Target × Option Err :=
  let res := queryBody cfg maxOpenConnections s.primaryC s.primaryR f parseErr
  (⟨res.counters, res.relay, s.replicaC, s.replicaR⟩, Target.primary, res.err)

/-- Embeds `call(procedure, argsCount)`: builds the `CALL proc(?, ...)`
statement. -/
def call (procedure : String) (argsCount : Nat) : String :=
  "CALL " ++ procedure ++ "(" ++
    String.intercalate ", " (List.replicate argsCount "?") ++ ");"

/-- Embeds `Client.Call`: builds the CALL statement with `call` and
delegates to `Client.Query`, so it routes exactly as `Query` does. -/
def clientCall (cfg : Config) (maxOpenConnections : Int) (hasReplica : Bool)
    (s : TwoClients) (f : Nat → Option Err) (parseErr : Option Err) :
    TwoClients × Target × Option Err :=
  clientQuery cfg maxOpenConnections hasReplica s f parseErr

/-- Embeds `Client.Exec` at the routing level: `Exec` has no replica check;
it always runs on the primary client. -/
def clientExecRouted (cfg : Config) (maxOpenConnections : Int) (hasReplica : Bool)
    (s : TwoClients) (f : Nat → Option Err) :
    TwoClients × Target × Option Err :=
  let res := clientExec cfg maxOpenConnections s.primaryC s.primaryR f
  (⟨res.counters, res.relay, s.replicaC, s.replicaR⟩, Target.primary, res.err)

/-- Embeds `Client.Begin` (non-read-only path, observable parts): return
the context transaction unchanged when present; otherwise the deferred
conditional decrement (`if *e != nil`), `limitReached`, `r.start()`, the
deferred `r.conditionalEnd(&err)` (called with the ADDRESS of `err`, a
non-nil pointer), and `BeginTx` whose outcome is `beginErr`. -/
def clientBegin (cfg : Config) (maxOpenConnections : Int) (ctxTx : Option Nat)
    (c : Counters) (r : RelayState) (beginErr : Option Err) :
    Counters × RelayState × Option Err :=
  if ctxTx.isSome then (c, r, none)
  else
    match limitReached c maxOpenConnections cfg.MaxQueuedQueries with
    | (c1, some e) =>
      (⟨c1.inProgressQueries - 1, c1.totalSuccessQueries, c1.totalFailedQueries⟩,
        r, some e)
    | (c1, none) =>
      let r1 := relayStart r
      match beginErr with
      | some e =>
        let r2 := conditionalEnd r1 (some (some e))
        (⟨c1.inProgressQueries - 1, c1.totalSuccessQueries, c1.totalFailedQueries⟩,
          r2, some e)
      | none =>
        let r2 := conditionalEnd r1 (some none)
        (c1, r2, none)

/-- One observer channel registered via `Transaction.Done()`: an unbuffered
`chan error`. `ready` says whether a reader is waiting at fan-out time (a
non-blocking send succeeds exactly then); `received` records the value the
channel delivered (`none` = nothing was ever delivered; `some v` = the
error value `v` was delivered, `v = none` being a nil error). -/
structure ObsChan where
  ready : Bool
  received : Option (Option Err)
deriving DecidableEq, Repr

/-- Embeds `Transaction.close(err)`: iterate over the registered channels
and perform a non-blocking send of `e` on each — delivery to a channel
succeeds iff its reader is ready, and an unready channel is skipped. -/
def txCloseFan (chans : List ObsChan) (e : Option Err) : List ObsChan :=
  chans.map (fun ch => if ch.ready then ⟨ch.ready, some e⟩ else ch)

/-- Embeds `Transaction.Done()`: append a fresh unbuffered channel to the
observer list and return (new list, index of the new channel). Nothing is
ever sent on the new channel by `Done` itself; only a later
`Transaction.close` run sends to registered channels. -/
def txDone (chans : List ObsChan) (ready : Bool) : List ObsChan × Nat :=
  (chans ++ [⟨ready, none⟩], chans.length)

/-- State of one `Transaction` plus its call context: `ctxTx` is the
transaction handle found in the context (`ctx.Value("tx")`), if any,
identified by an id; `selfId` identifies this transaction. -/
structure TxState where
  ctxTx : Option Nat
  selfId : Nat
  chans : List ObsChan
  counters : Counters
  relay : RelayState
deriving DecidableEq, Repr

/-- Result of `Transaction.Commit`/`Transaction.Rollback`: whether the
terminal transition ran, the resulting observers/counters/relay, and the
returned error. -/
structure TxTermResult where
  performed : Bool
  chans : List ObsChan
  counters : Counters
  relay : RelayState
  ret : Option Err
deriving DecidableEq, Repr

/-- Embeds `Transaction.Commit(ctx)`: when the context carries ANY
transaction handle (`ctx.Value("tx")` type-asserts to `*Transaction`,
with no identity comparison against the receiver) it returns nil at once;
otherwise it decrements the in-progress counter, releases the relay
ticket, runs the driver commit (outcome `driverErr`), counts
success/failure, fans `driverErr` out to the observers and returns it. -/
def txCommit (t : TxState) (driverErr : Option Err) : TxTermResult :=
  if t.ctxTx.isSome then
    ⟨false, t.chans, t.counters, t.relay, none⟩
  else
    let c1 : Counters :=
      match driverErr with
      | none =>
        ⟨t.counters.inProgressQueries - 1, t.counters.totalSuccessQueries + 1,
          t.counters.totalFailedQueries⟩
      | some _ =>
        ⟨t.counters.inProgressQueries - 1, t.counters.totalSuccessQueries,
          t.counters.totalFailedQueries + 1⟩
    ⟨true, txCloseFan t.chans driverErr, c1, relayEnd t.relay, driverErr⟩

/-- Embeds `Transaction.Rollback(ctx)`: same context check as `Commit`;
on the performing path it runs the driver rollback (outcome `driverErr`),
and fans out `driverErr` itself when non-nil, and the sentinel
`ErrRollback` when the driver rollback succeeded; it returns
`driverErr`. -/
def txRollback (t : TxState) (driverErr : Option Err) : TxTermResult :=
  if t.ctxTx.isSome then
    ⟨false, t.chans, t.counters, t.relay, none⟩
  else
    let c1 : Counters :=
      match driverErr with
      | none =>
        ⟨t.counters.inProgressQueries - 1, t.counters.totalSuccessQueries + 1,
          t.counters.totalFailedQueries⟩
      | some _ =>
        ⟨t.counters.inProgressQueries - 1, t.counters.totalSuccessQueries,
          t.counters.totalFailedQueries + 1⟩
    let fanVal : Option Err :=
      match driverErr with
      | some e => some e
      | none => some Err.errRollback
    ⟨true, txCloseFan t.chans fanVal, c1, relayEnd t.relay, driverErr⟩

/-- One `sql.ColumnType`, reduced to the only part the package reads for
indexing: its `Name()`. -/
structure ColumnType where
  name : String
deriving DecidableEq, Repr

/-- Embeds the `Columns` struct: the column types of a result set. The
`names` and `indexes` caches are derived lazily from `columnTypes` and are
modelled by the functions below. -/
structure Columns where
  columnTypes : List ColumnType
deriving DecidableEq, Repr

/-- Embeds `Columns.ColumnNames()`: the list of column names in column
order. -/
def ColumnNames (c : Columns) : List String := c.columnTypes.map ColumnType.name

/-- Embeds the map-building loop of `Columns.ColumnIndex`:
`for name, index := range c.ColumnNames() { c.indexes[index] = name }`
(the range variables are swapped in the source: `name` is the position,
`index` the column name). The Go map is modelled as a lookup function; a
later insert for the same key overwrites an earlier one. `i` is the
position of the head of `l` in the full name list. -/
def insertLoop : List String → Nat → (String → Option Nat) → String → Option Nat
  | [], _, m, k => m k
  | n :: rest, i, m, k =>
    insertLoop rest (i + 1) (fun q => if q = n then some i else m q) k

/-- The `indexes` map of a `Columns` value after the build loop. -/
def columnIndexes (c : Columns) (k : String) : Option Nat :=
  insertLoop (ColumnNames c) 0 (fun _ => none) k

/-- Embeds `Columns.ColumnIndex(name)`: look `name` up in the `indexes`
map, or fail with "column name not found". -/
def ColumnIndex (c : Columns) (name : String) : Except String Nat :=
  match columnIndexes c name with
  | some i => Except.ok i
  | none => Except.error "column name not found"

/-- A decoded row element. The decoding layer is outside the verified core;
elements are treated as opaque values identified by a tag. -/
structure Element where
  tag : Nat
deriving DecidableEq, Repr

/-- Embeds the `Row` struct: decoded elements plus the shared `Columns`. -/
structure Row where
  Elements : List Element
  Columns : Columns
deriving DecidableEq, Repr

/-- Embeds `Row.GetElementByName(name)`: nil when `ColumnIndex` fails,
otherwise the element at the returned index (`List.get?` models the Go
indexing, which is in range whenever the row has one element per
column). -/
def GetElementByName (r : Row) (name : String) : Option Element :=
  match ColumnIndex r.Columns name with
  | Except.error _ => none
  | Except.ok i => r.Elements.get? i

/-- Specification helper: the index of the LAST occurrence of `k` in `l`,
the observable content of a Go map built by inserting occurrences left to
right. -/
def lastIdx : List String → String → Option Nat
  | [], _ => none
  | n :: rest, k =>
    match lastIdx rest k with
    | some d => some (d + 1)
    | none => if k = n then some 0 else none

/-- `limitReached` increments the in-progress counter in both branches and
leaves the other two counters unchanged. -/
theorem limitReached_inProgress (c : Counters) (mo mq : Int) :
    (limitReached c mo mq).1
      = ⟨c.inProgressQueries + 1, c.totalSuccessQueries, c.totalFailedQueries⟩ := by
  unfold limitReached
  simp only []
  split <;> rfl

/-- One non-deadlock attempt stops the loop at once. -/
theorem retryGo_stop (f : Nat → Option Err) (fuel made : Nat) (last : Option Err)
    (sleeps : Nat)
    (h : IsErrorCode (f made) ErrMySQLDeadlock = false) :
    retryGo f (fuel + 1) made last sleeps = (made + 1, sleeps, f made) := by
  simp [retryGo, h]

/-- When every attempt is classified as a deadlock, the loop exhausts its
fuel, sleeping after each attempt, and ends carrying the error of the last
attempt. -/
theorem retryGo_deadlock_all (f : Nat → Option Err)
    (h : ∀ k, IsErrorCode (f k) ErrMySQLDeadlock = true) :
    ∀ fuel made last sleeps, retryGo f (fuel + 1) made last sleeps
      = (made + fuel + 1, sleeps + fuel + 1, f (made + fuel)) := by
  intro fuel
  induction fuel with
  | zero =>
    intro made last sleeps
    simp [retryGo, h made]
  | succ n ih =>
    intro made last sleeps
    have hstep : retryGo f (n + 1 + 1) made last sleeps
        = retryGo f (n + 1) (made + 1) (f made) (sleeps + 1) := by
      simp [retryGo, h made]
    rw [hstep, ih (made + 1) (f made) (sleeps + 1)]
    have e1 : made + 1 + n = made + (n + 1) := by omega
    rw [e1]
    have e2 : made + (n + 1) + 1 = made + (n + 1) + 1 := rfl
    have e3 : sleeps + 1 + n + 1 = sleeps + (n + 1) + 1 := by omega
    rw [e3]

/-- If the first `j` attempts (from `made`) are deadlocks and attempt
`made + j` is not, the loop stops after `j + 1` attempts and `j` sleeps,
returning the outcome of attempt `made + j` — first success (or first
non-deadlock failure) short-circuits. -/
theorem retryGo_prefix (f : Nat → Option Err) :
    ∀ (j fuel made : Nat) (last : Option Err) (sleeps : Nat),
      (∀ k, k < j → IsErrorCode (f (made + k)) ErrMySQLDeadlock = true) →
      IsErrorCode (f (made + j)) ErrMySQLDeadlock = false →
      j < fuel →
      retryGo f fuel made last sleeps = (made + j + 1, sleeps + j, f (made + j)) := by
  intro j
  induction j with
  | zero =>
    intro fuel made last sleeps _ hstop hlt
    obtain ⟨m, rfl⟩ : ∃ m, fuel = m + 1 := ⟨fuel - 1, by omega⟩
    simp only [Nat.add_zero] at hstop
    rw [retryGo_stop f m made last sleeps hstop]
    simp
  | succ n ih =>
    intro fuel made last sleeps hpre hstop hlt
    obtain ⟨m, rfl⟩ : ∃ m, fuel = m + 1 := ⟨fuel - 1, by omega⟩
    have h0 : IsErrorCode (f made) ErrMySQLDeadlock = true := by
      have := hpre 0 (by omega)
      simpa using this
    have hstep : retryGo f (m + 1) made last sleeps
        = retryGo f m (made + 1) (f made) (sleeps + 1) := by
      simp [retryGo, h0]
    have hpre2 : ∀ k, k < n → IsErrorCode (f (made + 1 + k)) ErrMySQLDeadlock = true := by
      intro k hk
      have := hpre (k + 1) (by omega)
      have e : made + (k + 1) = made + 1 + k := by omega
      rwa [e] at this
    have hstop2 : IsErrorCode (f (made + 1 + n)) ErrMySQLDeadlock = false := by
      have e : made + (n + 1) = made + 1 + n := by omega
      rwa [e] at hstop
    rw [hstep, ih m (made + 1) (f made) (sleeps + 1) hpre2 hstop2 (by omega)]
    have e1 : made + 1 + n = made + (n + 1) := by omega
    have e2 : sleeps + 1 + n = sleeps + (n + 1) := by omega
    rw [e1, e2]

/-- With retries enabled and a nonnegative count, the loop counter starts
at `RetryOnDeadlockCount + 1`. -/
theorem initialAttempts_toNat (cfg : Config) (hon : cfg.RetryOnDeadlock = true)
    (hc : 0 ≤ cfg.RetryOnDeadlockCount) :
    (initialAttempts cfg).toNat = cfg.RetryOnDeadlockCount.toNat + 1 := by
  simp [initialAttempts, hon]
  omega

/-- `Client.Exec` leaves the in-progress counter where it found it, on
every path. -/
theorem clientExec_inProgress (cfg : Config) (maxOpen : Int) (c : Counters)
    (r : RelayState) (f : Nat → Option Err) :
    (clientExec cfg maxOpen c r f).counters.inProgressQueries = c.inProgressQueries := by
  have h1 := limitReached_inProgress c maxOpen cfg.MaxQueuedQueries
  rcases hp : limitReached c maxOpen cfg.MaxQueuedQueries with ⟨c1, e⟩
  rw [hp] at h1
  have h2 : c1.inProgressQueries = c.inProgressQueries + 1 := by
    have h1b := congrArg Counters.inProgressQueries h1
    simpa using h1b
  cases e with
  | some e0 =>
    simp only [clientExec, hp]
    omega
  | none =>
    cases h3 : (clientRetryLoop cfg f).2.2 with
    | some e1 =>
      simp only [clientExec, hp, h3]
      omega
    | none =>
      simp only [clientExec, hp, h3]
      omega

/-- The shared `Query`/`MultiQuery` body leaves the in-progress counter
where it found it, on every path including parse failure. -/
theorem queryBody_inProgress (cfg : Config) (maxOpen : Int) (c : Counters)
    (r : RelayState) (f : Nat → Option Err) (parseErr : Option Err) :
    (queryBody cfg maxOpen c r f parseErr).counters.inProgressQueries
      = c.inProgressQueries := by
  have h1 := limitReached_inProgress c maxOpen cfg.MaxQueuedQueries
  rcases hp : limitReached c maxOpen cfg.MaxQueuedQueries with ⟨c1, e⟩
  rw [hp] at h1
  have h2 : c1.inProgressQueries = c.inProgressQueries + 1 := by
    have h1b := congrArg Counters.inProgressQueries h1
    simpa using h1b
  cases e with
  | some e0 =>
    simp only [queryBody, hp]
    omega
  | none =>
    cases h3 : (clientRetryLoop cfg f).2.2 with
    | some e1 =>
      simp only [queryBody, hp, h3]
      omega
    | none =>
      cases parseErr with
      | some e2 =>
        simp only [queryBody, hp, h3]
        omega
      | none =>
        simp only [queryBody, hp, h3]
        omega

/-- The map built by the range loop answers with the last occurrence of
the key, falling back to the initial map for absent keys. -/
theorem insertLoop_eq_lastIdx (l : List String) :
    ∀ (i : Nat) (m : String → Option Nat) (k : String),
      insertLoop l i m k
        = match lastIdx l k with
          | some d => some (i + d)
          | none => m k := by
  induction l with
  | nil =>
    intro i m k
    rfl
  | cons n rest ih =>
    intro i m k
    show insertLoop rest (i + 1) (fun q => if q = n then some i else m q) k = _
    rw [ih (i + 1) (fun q => if q = n then some i else m q) k]
    cases hrest : lastIdx rest k with
    | some d =>
      simp [lastIdx, hrest]
      omega
    | none =>
      by_cases hk : k = n
      · subst hk
        simp [lastIdx, hrest]
      · simp [lastIdx, hrest, hk]

/-- A last-occurrence index points at the key. -/
theorem lastIdx_get (k : String) :
    ∀ (l : List String) (d : Nat), lastIdx l k = some d → l.get? d = some k := by
  intro l
  induction l with
  | nil =>
    intro d h
    simp [lastIdx] at h
  | cons n rest ih =>
    intro d h
    cases hrest : lastIdx rest k with
    | some e =>
      rw [lastIdx, hrest] at h
      cases h
      simpa using ih e hrest
    | none =>
      rw [lastIdx, hrest] at h
      by_cases hk : k = n
      · rw [if_pos hk] at h
        cases h
        simp [hk]
      · rw [if_neg hk] at h
        cases h

/-- `lastIdx` fails exactly for absent keys. -/
theorem lastIdx_eq_none_iff (k : String) :
    ∀ l : List String, lastIdx l k = none ↔ k ∉ l := by
  intro l
  induction l with
  | nil =>
    simp [lastIdx]
  | cons n rest ih =>
    cases hrest : lastIdx rest k with
    | some e =>
      have hkmem : k ∈ rest := List.get?_mem (lastIdx_get k rest e hrest)
      simp only [lastIdx, hrest]
      constructor
      · intro h
        cases h
      · intro h
        exact absurd (List.mem_cons_of_mem n hkmem) h
    | none =>
      have hnotin : k ∉ rest := ih.mp hrest
      simp only [lastIdx, hrest]
      by_cases hk : k = n
      · simp [hk]
      · simp [hk, hnotin]

/-- No occurrence of the key lies strictly beyond its last-occurrence
index. -/
theorem lastIdx_greatest (k : String) :
    ∀ (l : List String) (d : Nat), lastIdx l k = some d →
      ∀ j, l.get? j = some k → j ≤ d := by
  intro l
  induction l with
  | nil =>
    intro d h
    simp [lastIdx] at h
  | cons n rest ih =>
    intro d h j hj
    cases hrest : lastIdx rest k with
    | some e =>
      rw [lastIdx, hrest] at h
      cases h
      cases j with
      | zero => omega
      | succ j0 =>
        have hj0 : rest.get? j0 = some k := by simpa using hj
        have := ih e hrest j0 hj0
        omega
    | none =>
      rw [lastIdx, hrest] at h
      by_cases hk : k = n
      · rw [if_pos hk] at h
        cases h
        cases j with
        | zero => omega
        | succ j0 =>
          have hj0 : rest.get? j0 = some k := by simpa using hj
          have hmem : k ∈ rest := List.get?_mem hj0
          exact absurd hmem ((lastIdx_eq_none_iff k rest).mp hrest)
      · rw [if_neg hk] at h
        cases h

/-- Claim C1, counterexample: the context carries the transaction's OWN
handle (`ctxTx = some 7 = selfId`), so by the claim this call is by the
original owner and must perform the terminal transition — but
`Transaction.Commit` only checks that the context carries SOME transaction
and returns nil without running the commit, releasing the ticket, or
firing the observer. -/
theorem commit_skips_own_handle_cex :
    txCommit ⟨some 7, 7, [⟨true, none⟩], ⟨1, 0, 0⟩, ⟨200, 1, 1⟩⟩ none
      = ⟨false, [⟨true, none⟩], ⟨1, 0, 0⟩, ⟨200, 1, 1⟩, none⟩ ∧
    (txCommit ⟨some 7, 7, [⟨true, none⟩], ⟨1, 0, 0⟩, ⟨200, 1, 1⟩⟩ none).performed
      = false := by
  exact ⟨rfl, rfl⟩

/-- Claim C1 (amended): `Transaction.Commit` and `Transaction.Rollback`
skip entirely (no-op, returning nil, without releasing the ticket or
firing observers) exactly when the context carries ANY transaction handle
— including `t` itself; the terminal transition is performed exactly when
the context carries no transaction. -/
theorem terminal_skip_iff_ctx_has_tx (t : TxState) (e : Option Err) :
    (t.ctxTx.isSome = true →
      txCommit t e = ⟨false, t.chans, t.counters, t.relay, none⟩ ∧
      txRollback t e = ⟨false, t.chans, t.counters, t.relay, none⟩) ∧
    (t.ctxTx = none →
      (txCommit t e).performed = true ∧
      (txRollback t e).performed = true ∧
      (txCommit t e).relay = relayEnd t.relay ∧
      (txRollback t e).relay = relayEnd t.relay ∧
      (txCommit t e).chans = txCloseFan t.chans e ∧
      (txCommit t e).ret = e ∧
      (txRollback t e).ret = e) := by
  constructor
  · intro h
    constructor
    · simp [txCommit, h]
    · simp [txRollback, h]
  · intro h
    have h2 : t.ctxTx.isSome = false := by simp [h]
    cases e with
    | none => simp [txCommit, txRollback, h2]
    | some e0 => simp [txCommit, txRollback, h2]

/-- Witness for the amended C1 theorem at concrete inputs: a context
carrying a (foreign) transaction handle skips, a context carrying no
transaction performs the terminal transition. -/
theorem terminal_skip_iff_ctx_has_tx_witness :
    txCommit ⟨some 3, 0, [], ⟨0, 0, 0⟩, ⟨200, 1, 1⟩⟩ none
      = ⟨false, [], ⟨0, 0, 0⟩, ⟨200, 1, 1⟩, none⟩ ∧
    (txCommit ⟨none, 0, [], ⟨0, 0, 0⟩, ⟨200, 1, 1⟩⟩ none).performed = true :=
  ⟨((terminal_skip_iff_ctx_has_tx ⟨some 3, 0, [], ⟨0, 0, 0⟩, ⟨200, 1, 1⟩⟩ none).1
      rfl).1,
   ((terminal_skip_iff_ctx_has_tx ⟨none, 0, [], ⟨0, 0, 0⟩, ⟨200, 1, 1⟩⟩ none).2
      rfl).1⟩

/-- Claim C2: `relay.conditionalEnd(err *error)` tests `err != nil` on the
POINTER instead of the pointed-to error, so when called with the address
of an error variable (always a non-nil pointer, as in `Client.Begin`'s
`defer c.r.conditionalEnd(&err)`) it releases a ticket unconditionally.
In particular, on `Client.Begin`'s success path (driver `BeginTx`
returned nil) the ticket that should transfer to the new transaction is
released anyway: starting from one held ticket the relay ends with zero,
and a full successful `Begin` run ends with `held = 0` although the
open transaction is supposed to hold its admission ticket until
commit/rollback. -/
theorem conditionalEnd_always_releases :
    (∀ (r : RelayState) (v : Option Err), conditionalEnd r (some v) = relayEnd r) ∧
    conditionalEnd ⟨200, 1, 1⟩ (some none) = ⟨200, 0, 1⟩ ∧
    clientBegin NewDefaultConfig 20 none ⟨0, 0, 0⟩ ⟨200, 0, 0⟩ none
      = (⟨1, 0, 0⟩, ⟨200, 0, 1⟩, none) := by
  refine ⟨?_, rfl, rfl⟩
  intro r v
  simp [conditionalEnd]

/-- Claim C6: when `Transaction.Rollback` performs the terminal transition
(no transaction in the context) and the driver rollback succeeds, the
value fanned out to every observer channel is the distinguished non-nil
sentinel `ErrRollback` — not nil and not a driver (`MySQLError`) or
generic error — delivered by a non-blocking send (ready observers receive
it, unready ones are skipped unchanged); when the driver rollback fails,
that underlying error is fanned out instead. -/
theorem rollback_fanout_sentinel (t : TxState) (h : t.ctxTx = none) :
    ((txRollback t none).chans = txCloseFan t.chans (some Err.errRollback)) ∧
    (∀ i ch, t.chans.get? i = some ch →
      (txRollback t none).chans.get? i
        = some (if ch.ready then ⟨true, some (some Err.errRollback)⟩ else ch)) ∧
    ((some Err.errRollback : Option Err) ≠ none) ∧
    (∀ code msg, Err.errRollback ≠ Err.mysqlError code msg) ∧
    (∀ msg, Err.errRollback ≠ Err.generic msg) ∧
    (∀ e, (txRollback t (some e)).chans = txCloseFan t.chans (some e)) := by
  have h2 : t.ctxTx.isSome = false := by simp [h]
  refine ⟨by simp [txRollback, h2], ?_, by simp, ?_, ?_, ?_⟩
  · intro i ch hch
    simp only [txRollback, h2, Bool.false_eq_true, if_false, txCloseFan]
    rw [List.get?_map, hch]
    cases hr : ch.ready with
    | true => simp [hr]
    | false => simp [hr]
  · intro code msg hne
    cases hne
  · intro msg hne
    cases hne
  · intro e
    simp [txRollback, h2]

/-- Witness for C6 at a concrete transaction with one ready and one
unready observer: the ready observer receives the sentinel, the unready
one is skipped. -/
theorem rollback_fanout_sentinel_witness :
    (⟨none, 0, [⟨true, none⟩, ⟨false, none⟩], ⟨1, 0, 0⟩, ⟨200, 1, 1⟩⟩ : TxState).ctxTx
      = none ∧
    (txRollback ⟨none, 0, [⟨true, none⟩, ⟨false, none⟩], ⟨1, 0, 0⟩, ⟨200, 1, 1⟩⟩
        none).chans
      = [⟨true, some (some Err.errRollback)⟩, ⟨false, none⟩] := by
  refine ⟨rfl, ?_⟩
  rw [(rollback_fanout_sentinel
    ⟨none, 0, [⟨true, none⟩, ⟨false, none⟩], ⟨1, 0, 0⟩, ⟨200, 1, 1⟩⟩ rfl).1]
  rfl

/-- Claim C7: `Transaction.Done` called after the terminal fan-out has run
registers a channel that NEVER receives the terminal value, contradicting
the claim (and `Done`'s own doc comment, which promises the channel
returns nil or the error once the transaction is over). Here a commit
(with one ready pre-registered observer) reaches the terminal state and
fans out nil; then `Done` registers a new, ready channel: the
pre-registered observer received the terminal value, the late channel's
`received` stays `none` — and no operation of the API ever sends on it,
since `close` runs only inside the already-completed terminal
transition. -/
theorem done_after_close_never_delivers :
    (txCommit ⟨none, 5, [⟨true, none⟩], ⟨1, 0, 0⟩, ⟨200, 1, 1⟩⟩ none).chans
      = [⟨true, some none⟩] ∧
    (txDone (txCommit ⟨none, 5, [⟨true, none⟩], ⟨1, 0, 0⟩, ⟨200, 1, 1⟩⟩ none).chans
        true).1
      = [⟨true, some none⟩, ⟨true, none⟩] ∧
    ((txDone (txCommit ⟨none, 5, [⟨true, none⟩], ⟨1, 0, 0⟩, ⟨200, 1, 1⟩⟩ none).chans
        true).1.get?
      (txDone (txCommit ⟨none, 5, [⟨true, none⟩], ⟨1, 0, 0⟩, ⟨200, 1, 1⟩⟩ none).chans
        true).2)
      = some ⟨true, none⟩ := by
  exact ⟨rfl, rfl, rfl⟩

/-- Claim C8, counterexample: with a replica attached,
`Client.MultiQuery` still executes on the primary client (the source has
no replica check in `MultiQuery`), contradicting the claim that every
Query-family call is redirected. -/
theorem multiquery_not_redirected_cex :
    (clientMultiQuery NewDefaultConfig 20 true
        ⟨⟨0, 0, 0⟩, ⟨200, 0, 0⟩, ⟨0, 0, 0⟩, ⟨200, 0, 0⟩⟩ (fun _ => none) none).2.1
      = Target.primary ∧
    Target.primary ≠ Target.replica := by
  exact ⟨rfl, by decide⟩

/-- Claim C8 (amended): when a replica is attached, `Query` (and `Call`,
which delegates to `Query`) is redirected to the replica, while `Exec`
AND `MultiQuery` always execute on the primary; with no replica attached
every call executes on the primary. -/
theorem replica_routing (cfg : Config) (maxOpen : Int) (s : TwoClients)
    (f : Nat → Option Err) (parseErr : Option Err) (hasReplica : Bool) :
    (clientQuery cfg maxOpen true s f parseErr).2.1 = Target.replica ∧
    (clientCall cfg maxOpen true s f parseErr).2.1 = Target.replica ∧
    (clientQuery cfg maxOpen false s f parseErr).2.1 = Target.primary ∧
    (clientCall cfg maxOpen false s f parseErr).2.1 = Target.primary ∧
    (clientMultiQuery cfg maxOpen hasReplica s f parseErr).2.1 = Target.primary ∧
    (clientExecRouted cfg maxOpen hasReplica s f).2.1 = Target.primary := by
  simp [clientQuery, clientCall, clientMultiQuery, clientExecRouted]

/-- Claim C9: `stats.sample` never blocks the caller — the non-blocking
send enqueues the sample when the bounded channel has a free slot and
silently drops it otherwise, so the buffer never grows beyond the fixed
capacity. -/
theorem sample_never_blocks (q : List QueryStats) (x : QueryStats) :
    (q.length < sampleChanCap → statsSample q x = q ++ [x]) ∧
    (¬ q.length < sampleChanCap → statsSample q x = q) ∧
    (q.length ≤ sampleChanCap → (statsSample q x).length ≤ sampleChanCap) := by
  refine ⟨?_, ?_, ?_⟩
  · intro h
    simp [statsSample, h]
  · intro h
    simp [statsSample, h]
  · intro h
    by_cases h2 : q.length < sampleChanCap
    · simp [statsSample, h2]
      omega
    · simp [statsSample, h2]
      omega

/-- Witness for C9: a sample on an empty buffer is enqueued; a sample on
a buffer already at capacity is dropped. -/
theorem sample_never_blocks_witness :
    statsSample [] ⟨"SELECT 1", 5, 0, 0⟩ = [⟨"SELECT 1", 5, 0, 0⟩] ∧
    statsSample (List.replicate 100 ⟨"q", 0, 0, 0⟩) ⟨"SELECT 1", 5, 0, 0⟩
      = List.replicate 100 ⟨"q", 0, 0, 0⟩ :=
  ⟨(sample_never_blocks [] ⟨"SELECT 1", 5, 0, 0⟩).1 (by simp [sampleChanCap]),
   (sample_never_blocks (List.replicate 100 ⟨"q", 0, 0, 0⟩)
      ⟨"SELECT 1", 5, 0, 0⟩).2.1 (by simp [sampleChanCap])⟩

/-- A deadlock-classified outcome is a non-nil error. -/
theorem isErrorCode_ne_none (x : Option Err) (no : Nat)
    (h : IsErrorCode x no = true) : x ≠ none := by
  cases x with
  | none => simp [IsErrorCode] at h
  | some e => simp

/-- When admission succeeds, `Client.Exec` surfaces the retry loop's
attempt count, sleep count and final error unchanged. -/
theorem clientExec_loop_proj (cfg : Config) (maxOpen : Int) (c : Counters)
    (r : RelayState) (f : Nat → Option Err)
    (hnolimit : (limitReached c maxOpen cfg.MaxQueuedQueries).2 = none) :
    (clientExec cfg maxOpen c r f).attempts = (clientRetryLoop cfg f).1 ∧
    (clientExec cfg maxOpen c r f).sleeps = (clientRetryLoop cfg f).2.1 ∧
    (clientExec cfg maxOpen c r f).err = (clientRetryLoop cfg f).2.2 := by
  rcases hp : limitReached c maxOpen cfg.MaxQueuedQueries with ⟨c1, e⟩
  rw [hp] at hnolimit
  simp only at hnolimit
  subst hnolimit
  cases h3 : (clientRetryLoop cfg f).2.2 with
  | some e1 => simp [clientExec, hp, h3]
  | none => simp [clientExec, hp, h3]

/-- When admission succeeds, the `Query`/`MultiQuery` body surfaces the
retry loop's attempt count and sleep count, and surfaces the loop's error
whenever the loop failed. -/
theorem queryBody_loop_proj (cfg : Config) (maxOpen : Int) (c : Counters)
    (r : RelayState) (f : Nat → Option Err) (parseErr : Option Err)
    (hnolimit : (limitReached c maxOpen cfg.MaxQueuedQueries).2 = none) :
    (queryBody cfg maxOpen c r f parseErr).attempts = (clientRetryLoop cfg f).1 ∧
    (queryBody cfg maxOpen c r f parseErr).sleeps = (clientRetryLoop cfg f).2.1 ∧
    (∀ e, (clientRetryLoop cfg f).2.2 = some e →
      (queryBody cfg maxOpen c r f parseErr).err = some e) := by
  rcases hp : limitReached c maxOpen cfg.MaxQueuedQueries with ⟨c1, e⟩
  rw [hp] at hnolimit
  simp only at hnolimit
  subst hnolimit
  cases h3 : (clientRetryLoop cfg f).2.2 with
  | some e1 =>
    refine ⟨by simp [queryBody, hp, h3], by simp [queryBody, hp, h3], ?_⟩
    intro e0 he0
    cases he0
    simp [queryBody, hp, h3]
  | none =>
    cases parseErr with
    | some e2 =>
      refine ⟨by simp [queryBody, hp, h3], by simp [queryBody, hp, h3], ?_⟩
      intro e0 he0
      cases he0
    | none =>
      refine ⟨by simp [queryBody, hp, h3], by simp [queryBody, hp, h3], ?_⟩
      intro e0 he0
      cases he0

/-- Claim C3: with the retry policy enabled (`RetryOnDeadlock = true`,
count ≥ 0) and admission succeeding, `Client.Exec` and `Client.Query`
(whose body after the replica check is `queryBody`) behave as follows:
if every attempt fails with MySQL error code 1213, the operation is
attempted exactly `RetryOnDeadlockCount + 1` times, one
`RetryOnDeadlockDelay` sleep follows each deadlock-failed attempt (so in
particular the configured delay separates consecutive attempts), and the
last deadlock failure is returned; a first attempt failing with any other
error is attempted exactly once with no sleep and returned; and a success
at attempt `j` (after `j` deadlock failures) short-circuits the loop at
`j + 1` attempts. -/
theorem exec_query_deadlock_retry (cfg : Config) (maxOpen : Int) (c : Counters)
    (r : RelayState) (f : Nat → Option Err) (parseErr : Option Err)
    (hon : cfg.RetryOnDeadlock = true) (hc : 0 ≤ cfg.RetryOnDeadlockCount)
    (hnolimit : (limitReached c maxOpen cfg.MaxQueuedQueries).2 = none) :
    ((∀ k, IsErrorCode (f k) ErrMySQLDeadlock = true) →
      (clientExec cfg maxOpen c r f).attempts = cfg.RetryOnDeadlockCount.toNat + 1 ∧
      (clientExec cfg maxOpen c r f).sleeps = cfg.RetryOnDeadlockCount.toNat + 1 ∧
      (clientExec cfg maxOpen c r f).err = f cfg.RetryOnDeadlockCount.toNat ∧
      (queryBody cfg maxOpen c r f parseErr).attempts
        = cfg.RetryOnDeadlockCount.toNat + 1 ∧
      (queryBody cfg maxOpen c r f parseErr).err = f cfg.RetryOnDeadlockCount.toNat) ∧
    (∀ e, f 0 = some e → IsErrorCode (some e) ErrMySQLDeadlock = false →
      (clientExec cfg maxOpen c r f).attempts = 1 ∧
      (clientExec cfg maxOpen c r f).sleeps = 0 ∧
      (clientExec cfg maxOpen c r f).err = some e ∧
      (queryBody cfg maxOpen c r f parseErr).attempts = 1 ∧
      (queryBody cfg maxOpen c r f parseErr).err = some e) ∧
    (∀ j, j ≤ cfg.RetryOnDeadlockCount.toNat →
      (∀ k, k < j → IsErrorCode (f k) ErrMySQLDeadlock = true) →
      f j = none →
      (clientExec cfg maxOpen c r f).attempts = j + 1 ∧
      (clientExec cfg maxOpen c r f).sleeps = j ∧
      (clientExec cfg maxOpen c r f).err = none ∧
      (queryBody cfg maxOpen c r f parseErr).attempts = j + 1) := by
  have hN := initialAttempts_toNat cfg hon hc
  have hpe := clientExec_loop_proj cfg maxOpen c r f hnolimit
  have hpq := queryBody_loop_proj cfg maxOpen c r f parseErr hnolimit
  refine ⟨?_, ?_, ?_⟩
  · intro hall
    have hloop : clientRetryLoop cfg f
        = (cfg.RetryOnDeadlockCount.toNat + 1, cfg.RetryOnDeadlockCount.toNat + 1,
           f cfg.RetryOnDeadlockCount.toNat) := by
      rw [clientRetryLoop, hN,
        retryGo_deadlock_all f hall cfg.RetryOnDeadlockCount.toNat 0 none 0]
      simp
    obtain ⟨msome, hsome⟩ : ∃ e0, f cfg.RetryOnDeadlockCount.toNat = some e0 := by
      cases hx : f cfg.RetryOnDeadlockCount.toNat with
      | none =>
        exact absurd hx (isErrorCode_ne_none _ _ (hall cfg.RetryOnDeadlockCount.toNat))
      | some e0 => exact ⟨e0, rfl⟩
    refine ⟨?_, ?_, ?_, ?_, ?_⟩
    · rw [hpe.1, hloop]
    · rw [hpe.2.1, hloop]
    · rw [hpe.2.2, hloop]
    · rw [hpq.1, hloop]
    · rw [hsome]
      exact hpq.2.2 msome (by rw [hloop]; exact hsome)
  · intro e he hcode
    have hloop : clientRetryLoop cfg f = (1, 0, some e) := by
      rw [clientRetryLoop, hN]
      have := retryGo_stop f cfg.RetryOnDeadlockCount.toNat 0 none 0
        (by rw [he]; exact hcode)
      rw [this, he]
    refine ⟨?_, ?_, ?_, ?_, ?_⟩
    · rw [hpe.1, hloop]
    · rw [hpe.2.1, hloop]
    · rw [hpe.2.2, hloop]
    · rw [hpq.1, hloop]
    · exact hpq.2.2 e (by rw [hloop])
  · intro j hj hpre hsucc
    have hstop : IsErrorCode (f (0 + j)) ErrMySQLDeadlock = false := by
      simp only [Nat.zero_add]
      rw [hsucc]
      rfl
    have hpre2 : ∀ k, k < j → IsErrorCode (f (0 + k)) ErrMySQLDeadlock = true := by
      intro k hk
      simpa using hpre k hk
    have hloop : clientRetryLoop cfg f = (j + 1, j, none) := by
      rw [clientRetryLoop, hN,
        retryGo_prefix f j (cfg.RetryOnDeadlockCount.toNat + 1) 0 none 0 hpre2 hstop
          (by omega)]
      simp [hsucc]
    refine ⟨?_, ?_, ?_, ?_⟩
    · rw [hpe.1, hloop]
    · rw [hpe.2.1, hloop]
    · rw [hpe.2.2, hloop]
    · rw [hpq.1, hloop]

/-- Witness for C3 at the default config (count 5): six attempts when all
attempts deadlock, one attempt for a non-deadlock failure. -/
theorem exec_query_deadlock_retry_witness :
    (0 : Int) ≤ NewDefaultConfig.RetryOnDeadlockCount ∧
    (clientExec NewDefaultConfig 20 ⟨0, 0, 0⟩ ⟨200, 0, 0⟩
        (fun _ => some (Err.mysqlError 1213 "dl"))).attempts
      = NewDefaultConfig.RetryOnDeadlockCount.toNat + 1 ∧
    (clientExec NewDefaultConfig 20 ⟨0, 0, 0⟩ ⟨200, 0, 0⟩
        (fun _ => some (Err.generic "boom"))).attempts = 1 :=
  ⟨by decide,
   ((exec_query_deadlock_retry NewDefaultConfig 20 ⟨0, 0, 0⟩ ⟨200, 0, 0⟩
      (fun _ => some (Err.mysqlError 1213 "dl")) none rfl (by decide) (by decide)).1
      (fun _ => rfl)).1,
   ((exec_query_deadlock_retry NewDefaultConfig 20 ⟨0, 0, 0⟩ ⟨200, 0, 0⟩
      (fun _ => some (Err.generic "boom")) none rfl (by decide) (by decide)).2.1
      (Err.generic "boom") rfl rfl).1⟩

/-- Claim C4: `limitReached` increments the in-progress counter by one as
a side effect in every branch, and returns `ErrQueueOverloaded` exactly
when the incremented in-progress count minus the pool's
max-open-connections exceeds `MaxQueuedQueries`; on that overload path
`Client.Exec` returns the overload error immediately with the relay
untouched (no ticket ever acquired) and zero driver attempts. -/
theorem limitReached_overload_spec (cfg : Config) (maxOpen : Int) (c : Counters)
    (r : RelayState) (f : Nat → Option Err) :
    ((limitReached c maxOpen cfg.MaxQueuedQueries).1.inProgressQueries
        = c.inProgressQueries + 1) ∧
    ((limitReached c maxOpen cfg.MaxQueuedQueries).2 = some Err.errQueueOverloaded
       ↔ c.inProgressQueries + 1 - maxOpen > cfg.MaxQueuedQueries) ∧
    ((limitReached c maxOpen cfg.MaxQueuedQueries).2 = none
       ↔ ¬ c.inProgressQueries + 1 - maxOpen > cfg.MaxQueuedQueries) ∧
    ((limitReached c maxOpen cfg.MaxQueuedQueries).2 = some Err.errQueueOverloaded →
      (clientExec cfg maxOpen c r f).relay = r ∧
      (clientExec cfg maxOpen c r f).relay.acquires = r.acquires ∧
      (clientExec cfg maxOpen c r f).err = some Err.errQueueOverloaded ∧
      (clientExec cfg maxOpen c r f).attempts = 0) := by
  refine ⟨?_, ?_, ?_, ?_⟩
  · have := limitReached_inProgress c maxOpen cfg.MaxQueuedQueries
    rw [this]
  · unfold limitReached
    by_cases h : c.inProgressQueries + 1 - maxOpen > cfg.MaxQueuedQueries
    · simp [h]
    · simp [h]
  · unfold limitReached
    by_cases h : c.inProgressQueries + 1 - maxOpen > cfg.MaxQueuedQueries
    · simp [h]
    · simp [h]
  · intro hover
    rcases hp : limitReached c maxOpen cfg.MaxQueuedQueries with ⟨c1, e⟩
    rw [hp] at hover
    simp only at hover
    subst hover
    refine ⟨by simp [clientExec, hp], by simp [clientExec, hp],
      by simp [clientExec, hp], by simp [clientExec, hp]⟩

/-- Witness for C4: with the default config (slack 10000, pool max 20)
and 10030 queries already in progress, the check rejects and `Exec`
returns the overload error with the relay untouched. -/
theorem limitReached_overload_spec_witness :
    (limitReached ⟨10030, 0, 0⟩ 20 NewDefaultConfig.MaxQueuedQueries).2
      = some Err.errQueueOverloaded ∧
    (clientExec NewDefaultConfig 20 ⟨10030, 0, 0⟩ ⟨200, 0, 0⟩ (fun _ => none)).relay
      = ⟨200, 0, 0⟩ ∧
    (clientExec NewDefaultConfig 20 ⟨10030, 0, 0⟩ ⟨200, 0, 0⟩ (fun _ => none)).err
      = some Err.errQueueOverloaded :=
  ⟨by decide,
   ((limitReached_overload_spec NewDefaultConfig 20 ⟨10030, 0, 0⟩ ⟨200, 0, 0⟩
      (fun _ => none)).2.2.2 (by decide)).1,
   ((limitReached_overload_spec NewDefaultConfig 20 ⟨10030, 0, 0⟩ ⟨200, 0, 0⟩
      (fun _ => none)).2.2.2 (by decide)).2.2.1⟩

/-- Claim C5: `Client.Exec`, `Client.Query` and `Client.MultiQuery` leave
the in-progress counter exactly where it started on every exit path —
overload fast-reject, driver failure, parse failure, or success — on the
executing client and on the non-executing one alike: the single increment
inside `limitReached` is always balanced by exactly one decrement. -/
theorem inprogress_counter_balanced (cfg : Config) (maxOpen : Int) (c : Counters)
    (r : RelayState) (f : Nat → Option Err) (parseErr : Option Err)
    (hasReplica : Bool) (s : TwoClients) :
    (clientExec cfg maxOpen c r f).counters.inProgressQueries
      = c.inProgressQueries ∧
    (queryBody cfg maxOpen c r f parseErr).counters.inProgressQueries
      = c.inProgressQueries ∧
    (clientQuery cfg maxOpen hasReplica s f parseErr).1.primaryC.inProgressQueries
      = s.primaryC.inProgressQueries ∧
    (clientQuery cfg maxOpen hasReplica s f parseErr).1.replicaC.inProgressQueries
      = s.replicaC.inProgressQueries ∧
    (clientMultiQuery cfg maxOpen hasReplica s f parseErr).1.primaryC.inProgressQueries
      = s.primaryC.inProgressQueries ∧
    (clientMultiQuery cfg maxOpen hasReplica s f parseErr).1.replicaC.inProgressQueries
      = s.replicaC.inProgressQueries := by
  refine ⟨clientExec_inProgress cfg maxOpen c r f,
    queryBody_inProgress cfg maxOpen c r f parseErr, ?_, ?_, ?_, ?_⟩
  · cases hasReplica with
    | false =>
      simp only [clientQuery, Bool.false_eq_true, if_false]
      exact queryBody_inProgress cfg maxOpen s.primaryC s.primaryR f parseErr
    | true =>
      simp [clientQuery]
  · cases hasReplica with
    | false =>
      simp [clientQuery]
    | true =>
      simp only [clientQuery, if_true]
      exact queryBody_inProgress cfg maxOpen s.replicaC s.replicaR f parseErr
  · simp only [clientMultiQuery]
    exact queryBody_inProgress cfg maxOpen s.primaryC s.primaryR f parseErr
  · simp [clientMultiQuery]

/-- The `indexes` map lookup is the last-occurrence index. -/
theorem columnIndexes_eq_lastIdx (c : Columns) (k : String) :
    columnIndexes c k = lastIdx (ColumnNames c) k := by
  rw [columnIndexes, insertLoop_eq_lastIdx]
  cases h : lastIdx (ColumnNames c) k with
  | some d => simp
  | none => simp

/-- Claim C10: `Columns.ColumnIndex(name)` succeeds exactly when `name`
occurs in `Columns.ColumnNames()`, and on success returns the index of
the LAST occurrence of `name`; consequently `Row.GetElementByName`
returns the element at that index for a present name (an actual element
whenever the row has one element per column) and nil for an absent
one. -/
theorem columnIndex_getElement_spec (c : Columns) (name : String) :
    (∀ i, ColumnIndex c name = Except.ok i →
      (ColumnNames c).get? i = some name ∧
      ∀ j, (ColumnNames c).get? j = some name → j ≤ i) ∧
    ((∃ i, ColumnIndex c name = Except.ok i) ↔ name ∈ ColumnNames c) ∧
    (∀ r : Row, r.Columns = c → name ∉ ColumnNames c →
      GetElementByName r name = none) ∧
    (∀ r : Row, r.Columns = c → ∀ i, ColumnIndex c name = Except.ok i →
      GetElementByName r name = r.Elements.get? i) ∧
    (∀ r : Row, r.Columns = c → r.Elements.length = (ColumnNames c).length →
      name ∈ ColumnNames c → ∃ el, GetElementByName r name = some el) := by
  have hkey : ∀ i, ColumnIndex c name = Except.ok i ↔
      lastIdx (ColumnNames c) name = some i := by
    intro i
    rw [ColumnIndex, columnIndexes_eq_lastIdx]
    cases h : lastIdx (ColumnNames c) name with
    | some d =>
      constructor
      · intro hok
        simp only at hok
        cases hok
        rfl
      · intro hsome
        cases hsome
        rfl
    | none =>
      constructor
      · intro hok
        cases hok
      · intro hsome
        cases hsome
  refine ⟨?_, ?_, ?_, ?_, ?_⟩
  · intro i hok
    have hl := (hkey i).mp hok
    exact ⟨lastIdx_get name (ColumnNames c) i hl,
      lastIdx_greatest name (ColumnNames c) i hl⟩
  · constructor
    · rintro ⟨i, hok⟩
      exact List.get?_mem (lastIdx_get name (ColumnNames c) i ((hkey i).mp hok))
    · intro hmem
      cases hl : lastIdx (ColumnNames c) name with
      | none => exact absurd hmem ((lastIdx_eq_none_iff name (ColumnNames c)).mp hl)
      | some d => exact ⟨d, (hkey d).mpr hl⟩
  · intro r hrc habs
    have hl : lastIdx (ColumnNames c) name = none :=
      (lastIdx_eq_none_iff name (ColumnNames c)).mpr habs
    rw [GetElementByName, hrc, ColumnIndex, columnIndexes_eq_lastIdx, hl]
  · intro r hrc i hok
    rw [GetElementByName, hrc, hok]
  · intro r hrc hlen hmem
    cases hl : lastIdx (ColumnNames c) name with
    | none => exact absurd hmem ((lastIdx_eq_none_iff name (ColumnNames c)).mp hl)
    | some d =>
      have hget := lastIdx_get name (ColumnNames c) d hl
      have hd : d < (ColumnNames c).length := by
        by_contra hge
        rw [List.get?_eq_none.mpr (by omega)] at hget
        cases hget
      have hdel : d < r.Elements.length := by omega
      obtain ⟨el, hel⟩ : ∃ el, r.Elements.get? d = some el :=
        ⟨r.Elements.get ⟨d, hdel⟩, List.get?_eq_get hdel⟩
      refine ⟨el, ?_⟩
      rw [GetElementByName, hrc, ColumnIndex, columnIndexes_eq_lastIdx, hl]
      exact hel

/-- Witness for C10 on a concrete duplicated column list:
`ColumnIndex` returns the last occurrence of "a", `GetElementByName`
returns the element at that index, and an absent name yields nil. -/
theorem columnIndex_getElement_spec_witness :
    ColumnIndex ⟨[⟨"a"⟩, ⟨"b"⟩, ⟨"a"⟩]⟩ "a" = Except.ok 2 ∧
    (ColumnNames ⟨[⟨"a"⟩, ⟨"b"⟩, ⟨"a"⟩]⟩).get? 2 = some "a" ∧
    GetElementByName ⟨[⟨10⟩, ⟨11⟩, ⟨12⟩], ⟨[⟨"a"⟩, ⟨"b"⟩, ⟨"a"⟩]⟩⟩ "a" = some ⟨12⟩ ∧
    GetElementByName ⟨[⟨10⟩, ⟨11⟩, ⟨12⟩], ⟨[⟨"a"⟩, ⟨"b"⟩, ⟨"a"⟩]⟩⟩ "zz" = none := by
  refine ⟨rfl, ?_, ?_, ?_⟩
  · exact ((columnIndex_getElement_spec ⟨[⟨"a"⟩, ⟨"b"⟩, ⟨"a"⟩]⟩ "a").1 2 rfl).1
  · have h := (columnIndex_getElement_spec ⟨[⟨"a"⟩, ⟨"b"⟩, ⟨"a"⟩]⟩ "a").2.2.2.1
      ⟨[⟨10⟩, ⟨11⟩, ⟨12⟩], ⟨[⟨"a"⟩, ⟨"b"⟩, ⟨"a"⟩]⟩⟩ rfl 2 rfl
    rw [h]
    rfl
  · exact (columnIndex_getElement_spec ⟨[⟨"a"⟩, ⟨"b"⟩, ⟨"a"⟩]⟩ "zz").2.2.1
      ⟨[⟨10⟩, ⟨11⟩, ⟨12⟩], ⟨[⟨"a"⟩, ⟨"b"⟩, ⟨"a"⟩]⟩⟩ rfl (by decide)

end GoMysql
